import Mathlib

/-!
Verification of the c2pa-c stream bridge (`src/c_stream.rs`).

The Rust code adapts four C callbacks (read, seek, write, flush) plus an
opaque context into a Rust `Read + Write + Seek` object (`CStream`), and
provides an in-memory reference backend (`TestCStream`, a wrapper around
`Cursor<Vec<u8>>`) exposing the same callback shape.

Shallow-embedding conventions:

* the platform is 64-bit: `isize`, `usize`, `u64` and `i64` are all 64 bits
  wide; machine integers are modelled as `Int`/`Nat` with explicit wrapping
  exactly at the points where the Rust code casts;
* the opaque per-stream context and the two process-wide error slots (the
  crate's last-error slot written by `Error::set_last`, and the OS last-error
  state read by `std::io::Error::last_os_error`) are threaded explicitly as a
  `World`;
* a C callback is a Lean function from a `World` (plus the arguments the C
  function receives) to its signed result and the updated world; the byte
  buffer a read callback writes through its pointer is passed and returned by
  value as a `List Nat`;
* the bridge's `read`/`write` carry an instrumentation counter recording how
  many times the corresponding callback was invoked (always 0 or 1).
-/

/-- The modulus of 64-bit machine integers, `2^64`. -/
def U64MOD : Nat := 2 ^ 64

/-- The value of `isize::MAX` on a 64-bit platform, `2^63 - 1`. -/
def isizeMax : Nat := 2 ^ 63 - 1

/-- Rust `x as u64` (or `x as usize`) applied to a signed 64-bit value:
two's-complement reinterpretation, i.e. reduction modulo `2^64`. -/
def castIntToU64 (i : Int) : Nat := (i % (U64MOD : Int)).toNat

/-- Rust `x as i64` (or `x as isize`) applied to an unsigned 64-bit value:
two's-complement reinterpretation of the low 64 bits. -/
def castU64ToInt (n : Nat) : Int :=
  if n % U64MOD < 2 ^ 63 then ((n % U64MOD : Nat) : Int)
  else ((n % U64MOD : Nat) : Int) - (U64MOD : Int)

/-- The value range of a 64-bit `isize`. -/
def isizeRange (i : Int) : Prop := -(2 ^ 63) ≤ i ∧ i < 2 ^ 63

instance (i : Int) : Decidable (isizeRange i) :=
  inferInstanceAs (Decidable (_ ∧ _))

/-- The mutable state visible across the C boundary: the opaque stream
context of type `σ`, the crate's process-wide last-error slot, and the OS
last-error state (the text `std::io::Error::last_os_error()` would render,
i.e. the description of the current `errno`). -/
structure World (σ : Type) where
  ctx : σ
  lastErr : Option String
  osErr : String
deriving DecidableEq

/-- Modelled from the spec: `crate::Error::set_last` (not under `src/`) is
the "process-wide last error slot, set by a callback implementation
immediately before returning a negative sentinel"; it stores the
human-readable detail text. Modelled as overwriting the `lastErr` field of
the world. It does not touch the OS last-error state. -/
def Error.set_last {σ : Type} (w : World σ) (detail : String) : World σ :=
  { w with lastErr := some detail }

/-- Result of a `ReadCallback`: the signed `isize` return value, the updated
world, and the contents of the byte buffer after the callback wrote through
its `data` pointer. -/
structure ReadResult (σ : Type) where
  res : Int
  world : World σ
  buf : List Nat
deriving DecidableEq

/-- Result of a seek/write/flush callback: the signed `isize` return value
and the updated world. -/
structure CallResult (σ : Type) where
  res : Int
  world : World σ
deriving DecidableEq

/-- `C2paSeekMode`: the `repr(C)` seek-origin enum. -/
inductive C2paSeekMode where
  | Start
  | Current
  | End
deriving DecidableEq

/-- The `repr(C)` discriminants: `Start = 0`, `Current = 1`, `End = 2`. -/
def C2paSeekMode.code : C2paSeekMode → Nat
  | .Start => 0
  | .Current => 1
  | .End => 2

/-- `CStream`: the bridge's callback quad. The Rust struct also owns the
boxed context; here the context lives in the `World` that is threaded
through every operation. -/
structure CStream (σ : Type) where
  reader : World σ → List Nat → ReadResult σ
  seeker : World σ → Int → C2paSeekMode → CallResult σ
  writer : World σ → List Nat → CallResult σ
  flusher : World σ → CallResult σ

/-- The errors the bridge surfaces: the local `InvalidInput` guard failure,
or an I/O error whose detail text comes from `std::io::Error::last_os_error()`. -/
inductive IoError where
  | invalidInput (msg : String)
  | io (detail : String)
deriving DecidableEq

instance {ε α : Type} [DecidableEq ε] [DecidableEq α] : DecidableEq (Except ε α) := fun a b =>
  match a, b with
  | .error e, .error f =>
    if h : e = f then .isTrue (by rw [h]) else .isFalse (by intro hc; cases hc; exact h rfl)
  | .ok x, .ok y =>
    if h : x = y then .isTrue (by rw [h]) else .isFalse (by intro hc; cases hc; exact h rfl)
  | .error _, .ok _ => .isFalse (by intro hc; cases hc)
  | .ok _, .error _ => .isFalse (by intro hc; cases hc)

/-- Outcome of `CStream::read`: the `std::io::Result<usize>`, the world after
the call, the buffer contents after the call, and how many times the read
callback was invoked. -/
structure ReadOut (σ : Type) where
  result : Except IoError Nat
  world : World σ
  buf : List Nat
  calls : Nat
deriving DecidableEq

/-- Outcome of `CStream::seek`. -/
structure SeekOut (σ : Type) where
  result : Except IoError Nat
  world : World σ
deriving DecidableEq

/-- Outcome of `CStream::write`. -/
structure WriteOut (σ : Type) where
  result : Except IoError Nat
  world : World σ
  calls : Nat
deriving DecidableEq

/-- Outcome of `CStream::flush`. -/
structure FlushOut (σ : Type) where
  result : Except IoError Unit
  world : World σ
deriving DecidableEq

/-- `std::io::SeekFrom`: `Start` carries a `u64`, `Current` and `End` an
`i64`. -/
inductive SeekFrom where
  | Start (pos : Nat)
  | Current (pos : Int)
  | End (pos : Int)
deriving DecidableEq

/-- The `match` at the top of `CStream::seek`, mapping the native request to
the `(offset, mode)` pair handed to the seek callback. For `Start` the `u64`
offset is narrowed by `pos as i64`; the final `pos as isize` is the identity
on a 64-bit platform. -/
def seekArgs : SeekFrom → Int × C2paSeekMode
  | .Current pos => (pos, .Current)
  | .Start pos => (castU64ToInt pos, .Start)
  | .End pos => (pos, .End)

namespace CStream

variable {σ : Type}

/-- `impl Read for CStream::read`: reject a buffer longer than
`isize::MAX as usize` with `InvalidInput` before calling out; otherwise call
the read callback once with the context, the buffer and its length; a
negative result becomes `Err(std::io::Error::last_os_error())`, a
non-negative result `n` becomes `Ok(n as usize)`. -/
def read (cs : CStream σ) (w : World σ) (buf : List Nat) : ReadOut σ :=
  if buf.length > isizeMax then
    { result := .error (.invalidInput "Read buffer is too large"),
      world := w, buf := buf, calls := 0 }
  else
    let r := cs.reader w buf
    if r.res < 0 then
      { result := .error (.io r.world.osErr), world := r.world, buf := r.buf, calls := 1 }
    else
      { result := .ok (castIntToU64 r.res), world := r.world, buf := r.buf, calls := 1 }

/-- `impl Seek for CStream::seek`: invoke the seek callback on the mapped
`(offset, mode)` pair and return `Ok(new_pos as u64)` unconditionally — a
negative callback result is cast, not surfaced as an error. -/
def seek (cs : CStream σ) (w : World σ) (f : SeekFrom) : SeekOut σ :=
  let a := seekArgs f
  let r := cs.seeker w a.1 a.2
  { result := .ok (castIntToU64 r.res), world := r.world }

/-- `impl Write for CStream::write`: same oversized-buffer guard as `read`;
otherwise call the write callback once; a negative result becomes
`Err(std::io::Error::last_os_error())`, a non-negative result `n` becomes
`Ok(n as usize)`. -/
def write (cs : CStream σ) (w : World σ) (buf : List Nat) : WriteOut σ :=
  if buf.length > isizeMax then
    { result := .error (.invalidInput "Write buffer is too large"),
      world := w, calls := 0 }
  else
    let r := cs.writer w buf
    if r.res < 0 then
      { result := .error (.io r.world.osErr), world := r.world, calls := 1 }
    else
      { result := .ok (castIntToU64 r.res), world := r.world, calls := 1 }

/-- `impl Write for CStream::flush`: invoke the flush callback with only the
context; a negative result becomes `Err(std::io::Error::last_os_error())`,
anything else is `Ok(())`. -/
def flush (cs : CStream σ) (w : World σ) : FlushOut σ :=
  let r := cs.flusher w
  if r.res < 0 then
    { result := .error (.io r.world.osErr), world := r.world }
  else
    { result := .ok (), world := r.world }

end CStream

/-- `TestCStream`: the reference backend, a wrapper around
`Cursor<Vec<u8>>` — a byte vector plus a `u64` cursor position. Byte values
are `Nat`s; nothing here depends on them being below 256. -/
structure TestCStream where
  data : List Nat
  pos : Nat
deriving DecidableEq

namespace TestCStream

/-- `TestCStream::reader`, i.e. `Cursor::read`: copy
`amt = min (buffer length) (bytes remaining past the cursor)` bytes starting
at `min pos data.length` into the front of the buffer, advance the cursor by
`amt`, and return `amt as isize`. Reads from an in-memory cursor are
infallible in `std`, so the `Err` arm of the Rust `match` (which would call
`Error::set_last` and return `-1`) is dead code and has no counterpart here. -/
def reader (w : World TestCStream) (buf : List Nat) : ReadResult TestCStream :=
  let s := w.ctx
  let start := min s.pos s.data.length
  let amt := min buf.length (s.data.length - start)
  { res := ((amt : Nat) : Int),
    world := { w with ctx := { s with pos := s.pos + amt } },
    buf := (s.data.drop start).take amt ++ buf.drop amt }

/-- `u64::checked_add_signed`, as used by `Cursor::seek` for the
`Current`/`End` arms: `none` exactly when the signed sum leaves `[0, 2^64)`. -/
def checkedAddSigned (base : Nat) (off : Int) : Option Nat :=
  if 0 ≤ (base : Int) + off ∧ (base : Int) + off < (U64MOD : Int) then
    some ((base : Int) + off).toNat
  else
    none

/-- The text of the `std::io` error `Cursor::seek` produces for a negative or
overflowing target position (what `e.to_string()` renders in
`TestCStream::seeker`). -/
def cursorSeekErrorMsg : String := "invalid seek to a negative or overflowing position"

/-- `TestCStream::seeker`: for `Start`, `set_position(offset as u64)`
unconditionally; for `Current`/`End`, `Cursor::seek` from the cursor (resp.
the vector length) — on failure record the error text via `Error::set_last`
and return `-1`. On every non-error path fall through to
`cursor.position() as isize`. -/
def seeker (w : World TestCStream) (off : Int) (mode : C2paSeekMode) :
    CallResult TestCStream :=
  let s := w.ctx
  match mode with
  | .Start =>
    let s' : TestCStream := { s with pos := castIntToU64 off }
    { res := castU64ToInt s'.pos, world := { w with ctx := s' } }
  | .Current =>
    match checkedAddSigned s.pos off with
    | some p =>
      let s' : TestCStream := { s with pos := p }
      { res := castU64ToInt s'.pos, world := { w with ctx := s' } }
    | none => { res := -1, world := Error.set_last w cursorSeekErrorMsg }
  | .End =>
    match checkedAddSigned s.data.length off with
    | some p =>
      let s' : TestCStream := { s with pos := p }
      { res := castU64ToInt s'.pos, world := { w with ctx := s' } }
    | none => { res := -1, world := Error.set_last w cursorSeekErrorMsg }

/-- `TestCStream::writer`, i.e. `Cursor<Vec<u8>>::write`: zero-pad the vector
up to the cursor if it is shorter, overwrite at the cursor and extend as
needed, advance the cursor, and return the full buffer length. In-memory
writes are infallible, so the `set_last`/`-1` arm is dead code. -/
def writer (w : World TestCStream) (buf : List Nat) : CallResult TestCStream :=
  let s := w.ctx
  let padded := s.data ++ List.replicate (s.pos - s.data.length) 0
  { res := ((buf.length : Nat) : Int),
    world := { w with ctx := { data := padded.take s.pos ++ buf ++ padded.drop (s.pos + buf.length),
                               pos := s.pos + buf.length } } }

/-- `TestCStream::flusher`: always returns 0. -/
def flusher (w : World TestCStream) : CallResult TestCStream :=
  { res := 0, world := w }

/-- The callback quad installed by `TestCStream::into_c_stream`. -/
def stream : CStream TestCStream :=
  { reader := reader, seeker := seeker, writer := writer, flusher := flusher }

/-- `TestCStream::from_bytes`: a fresh cursor over `data` at position 0. The
crate last-error slot starts empty and the OS last-error text starts as the
empty string; no code in this file ever reads either on the paths the
reference backend exercises. -/
def from_bytes (data : List Nat) : World TestCStream :=
  { ctx := { data := data, pos := 0 }, lastErr := none, osErr := "" }

end TestCStream

/-- A synthetic backend whose read callback does what the reference backend's
error arm would do: record a detail string in the crate's last-error slot via
`Error::set_last` and return the `-1` sentinel, leaving the buffer as is. -/
def synthFailReader (detail : String) (w : World Unit) (buf : List Nat) : ReadResult Unit :=
  { res := -1, world := Error.set_last w detail, buf := buf }

/-- A bridge over the synthetic failing backend: every callback records
`detail` in the crate's last-error slot and returns `-1`. -/
def synthFailStream (detail : String) : CStream Unit :=
  { reader := synthFailReader detail,
    seeker := fun w _ _ => { res := -1, world := Error.set_last w detail },
    writer := fun w _ => { res := -1, world := Error.set_last w detail },
    flusher := fun w => { res := -1, world := Error.set_last w detail } }

/-- Read through the bridge repeatedly, once per entry of `sizes`, each time
with a fresh zeroed buffer of that size, concatenating the byte chunks each
read reports (`buf.take n` for a read returning `Ok n`). -/
def readChunks (w : World TestCStream) : List Nat → List Nat
  | [] => []
  | k :: ks =>
    let out := CStream.read TestCStream.stream w (List.replicate k 0)
    match out.result with
    | .ok n => out.buf.take n ++ readChunks out.world ks
    | .error _ => []

/-- A native seek request whose offsets fit the wire encoding: a `Start`
offset must be a representable `u64` (the `u64 → i64` narrowing operates on
this range and is a bijection from it onto the `i64` range); `Current` and
`End` offsets already are `i64`s. -/
def u64Wire : SeekFrom → Prop
  | .Start u => u < 2 ^ 64
  | .Current _ => True
  | .End _ => True

instance (f : SeekFrom) : Decidable (u64Wire f) :=
  match f with
  | .Start u => inferInstanceAs (Decidable (u < 2 ^ 64))
  | .Current _ => inferInstanceAs (Decidable True)
  | .End _ => inferInstanceAs (Decidable True)

/-- The starting world of the `test_cstream_seek` scenario: a reference
backend over the five bytes `[1, 2, 3, 4, 5]`. -/
def replayW0 : World TestCStream := TestCStream.from_bytes [1, 2, 3, 4, 5]

/-- Scenario step 1: `Seek(Start, 2)`. -/
def replayS1 : SeekOut TestCStream := CStream.seek TestCStream.stream replayW0 (.Start 2)

/-- Scenario step 2: read 3 bytes. -/
def replayR1 : ReadOut TestCStream :=
  CStream.read TestCStream.stream replayS1.world (List.replicate 3 0)

/-- Scenario step 3: `Seek(End, -2)`. -/
def replayS2 : SeekOut TestCStream := CStream.seek TestCStream.stream replayR1.world (.End (-2))

/-- Scenario step 4: read 2 bytes. -/
def replayR2 : ReadOut TestCStream :=
  CStream.read TestCStream.stream replayS2.world (List.replicate 2 0)

/-- Scenario step 5: `Seek(Current, -4)`. -/
def replayS3 : SeekOut TestCStream :=
  CStream.seek TestCStream.stream replayR2.world (.Current (-4))

/-- Scenario step 6: read 3 bytes. -/
def replayR3 : ReadOut TestCStream :=
  CStream.read TestCStream.stream replayS3.world (List.replicate 3 0)

theorem castIntToU64_ofNat (n : Nat) (h : n < 2 ^ 64) :
    castIntToU64 ((n : Nat) : Int) = n := by
  unfold castIntToU64 U64MOD
  omega

theorem castIntToU64_neg (r : Int) (h1 : -(2 ^ 63) ≤ r) (h2 : r < 0) :
    castIntToU64 r = (2 ^ 64 + r).toNat := by
  unfold castIntToU64 U64MOD
  omega

theorem castU64ToInt_castIntToU64 (i : Int) (h : isizeRange i) :
    castU64ToInt (castIntToU64 i) = i := by
  unfold isizeRange at h
  unfold castU64ToInt castIntToU64 U64MOD
  split <;> omega

theorem take_add_append {α : Type} (a b : Nat) : ∀ l : List α,
    l.take (a + b) = l.take a ++ (l.drop a).take b := by
  induction a with
  | zero => intro l; simp
  | succ a ih =>
    intro l
    cases l with
    | nil => simp
    | cons x xs =>
      have h : a + 1 + b = (a + b) + 1 := by omega
      rw [h]
      simp [List.take_succ_cons, List.drop_succ_cons, ih xs]

theorem castU64ToInt_inj (a b : Nat) (ha : a < 2 ^ 64) (hb : b < 2 ^ 64)
    (h : castU64ToInt a = castU64ToInt b) : a = b := by
  unfold castU64ToInt U64MOD at h
  split at h <;> split at h <;> omega

namespace CStream

variable {σ : Type}

theorem read_oversized (cs : CStream σ) (w : World σ) (buf : List Nat)
    (hb : isizeMax < buf.length) :
    cs.read w buf = { result := .error (.invalidInput "Read buffer is too large"),
                      world := w, buf := buf, calls := 0 } := by
  unfold read
  rw [if_pos hb]

theorem read_neg (cs : CStream σ) (w : World σ) (buf : List Nat)
    (hb : buf.length ≤ isizeMax) (hneg : (cs.reader w buf).res < 0) :
    cs.read w buf = { result := .error (.io (cs.reader w buf).world.osErr),
                      world := (cs.reader w buf).world,
                      buf := (cs.reader w buf).buf, calls := 1 } := by
  simp only [read]
  rw [if_neg (Nat.not_lt.mpr hb), if_pos hneg]

theorem read_nonneg (cs : CStream σ) (w : World σ) (buf : List Nat)
    (hb : buf.length ≤ isizeMax) (hpos : ¬(cs.reader w buf).res < 0) :
    cs.read w buf = { result := .ok (castIntToU64 (cs.reader w buf).res),
                      world := (cs.reader w buf).world,
                      buf := (cs.reader w buf).buf, calls := 1 } := by
  simp only [read]
  rw [if_neg (Nat.not_lt.mpr hb), if_neg hpos]

theorem write_oversized (cs : CStream σ) (w : World σ) (buf : List Nat)
    (hb : isizeMax < buf.length) :
    cs.write w buf = { result := .error (.invalidInput "Write buffer is too large"),
                       world := w, calls := 0 } := by
  unfold write
  rw [if_pos hb]

theorem write_neg (cs : CStream σ) (w : World σ) (buf : List Nat)
    (hb : buf.length ≤ isizeMax) (hneg : (cs.writer w buf).res < 0) :
    cs.write w buf = { result := .error (.io (cs.writer w buf).world.osErr),
                       world := (cs.writer w buf).world, calls := 1 } := by
  simp only [write]
  rw [if_neg (Nat.not_lt.mpr hb), if_pos hneg]

theorem write_nonneg (cs : CStream σ) (w : World σ) (buf : List Nat)
    (hb : buf.length ≤ isizeMax) (hpos : ¬(cs.writer w buf).res < 0) :
    cs.write w buf = { result := .ok (castIntToU64 (cs.writer w buf).res),
                       world := (cs.writer w buf).world, calls := 1 } := by
  simp only [write]
  rw [if_neg (Nat.not_lt.mpr hb), if_neg hpos]

theorem flush_neg (cs : CStream σ) (w : World σ)
    (hneg : (cs.flusher w).res < 0) :
    cs.flush w = { result := .error (.io (cs.flusher w).world.osErr),
                   world := (cs.flusher w).world } := by
  simp only [flush]
  rw [if_pos hneg]

theorem flush_nonneg (cs : CStream σ) (w : World σ)
    (hpos : ¬(cs.flusher w).res < 0) :
    cs.flush w = { result := .ok (), world := (cs.flusher w).world } := by
  simp only [flush]
  rw [if_neg hpos]

theorem seek_eq (cs : CStream σ) (w : World σ) (f : SeekFrom) :
    cs.seek w f = { result := .ok (castIntToU64 (cs.seeker w (seekArgs f).1 (seekArgs f).2).res),
                    world := (cs.seeker w (seekArgs f).1 (seekArgs f).2).world } := rfl

end CStream

/-- A bridge read against the reference backend, computed in closed form:
with `start = min pos data.length` and
`amt = min buf.length (data.length - start)`, the read returns `Ok amt`,
advances the cursor by `amt`, and the buffer now holds the `amt` bytes of
`data` past `start` followed by its own untouched tail. -/
theorem stream_read_eq (B : List Nat) (p : Nat) (le : Option String) (os : String)
    (buf : List Nat) (hb : buf.length ≤ isizeMax) :
    CStream.read TestCStream.stream ⟨⟨B, p⟩, le, os⟩ buf
      = { result := .ok (min buf.length (B.length - min p B.length)),
          world := ⟨⟨B, p + min buf.length (B.length - min p B.length)⟩, le, os⟩,
          buf := (B.drop (min p B.length)).take (min buf.length (B.length - min p B.length))
                   ++ buf.drop (min buf.length (B.length - min p B.length)),
          calls := 1 } := by
  have hg : ¬ buf.length > isizeMax := Nat.not_lt.mpr hb
  have hcast : castIntToU64 ((min buf.length (B.length - min p B.length) : Nat) : Int)
      = min buf.length (B.length - min p B.length) := by
    refine castIntToU64_ofNat _ ?_
    have hle : min buf.length (B.length - min p B.length) ≤ buf.length := Nat.min_le_left _ _
    unfold isizeMax at hb
    omega
  have hres : ¬ ((min buf.length (B.length - min p B.length) : Nat) : Int) < 0 := by
    omega
  simp only [CStream.read, TestCStream.stream, TestCStream.reader]
  rw [if_neg hg, if_neg hres, hcast]

/-- Reading through the bridge over the reference backend with a schedule of
in-range chunk sizes is greedy: the concatenated output is the prefix of the
bytes past the cursor of length `min (sum of the sizes) (bytes remaining)`. -/
theorem readChunks_eq (sizes : List Nat) :
    ∀ (B : List Nat) (p : Nat) (le : Option String) (os : String),
    p ≤ B.length → (∀ k ∈ sizes, k ≤ isizeMax) →
    readChunks ⟨⟨B, p⟩, le, os⟩ sizes
      = (B.drop p).take (min sizes.sum (B.length - p)) := by
  induction sizes with
  | nil =>
    intro B p le os hp hk
    simp [readChunks]
  | cons k ks ih =>
    intro B p le os hp hk
    have hkmax : k ≤ isizeMax := hk k (List.mem_cons_self k ks)
    have hksmax : ∀ x ∈ ks, x ≤ isizeMax := fun x hx => hk x (List.mem_cons_of_mem k hx)
    have hminp : min p B.length = p := Nat.min_eq_left hp
    have hread := stream_read_eq B p le os (List.replicate k 0)
      (by rw [List.length_replicate]; exact hkmax)
    rw [hminp, List.length_replicate] at hread
    set rem := B.length - p with hrem
    set amt := min k rem with hamt
    have hamt_le : amt ≤ rem := by omega
    simp only [readChunks, hread]
    have hlen1 : ((B.drop p).take amt).length = amt := by
      rw [List.length_take, List.length_drop]
      omega
    rw [List.take_left' hlen1]
    have hpamt : p + amt ≤ B.length := by omega
    rw [ih B (p + amt) le os hpamt hksmax]
    rw [← List.drop_drop, ← take_add_append]
    congr 1
    rw [List.sum_cons]
    omega

/-- Claim C1: for every seek request the bridge's `Seek` returns `Ok`: the
seek callback's signed result is cast directly to the unsigned returned
position (`new_pos as u64`), and a negative callback result is not
translated into an error — an in-range negative result `r` comes back as
`Ok` of the wrapped position `2^64 + r`. -/
theorem seek_always_ok {σ : Type} (cs : CStream σ) (w : World σ) (f : SeekFrom) :
    (cs.seek w f).result
      = .ok (castIntToU64 (cs.seeker w (seekArgs f).1 (seekArgs f).2).res) ∧
    ∀ r : Int, (cs.seeker w (seekArgs f).1 (seekArgs f).2).res = r → r < 0 →
      isizeRange r → (cs.seek w f).result = .ok ((2 ^ 64 + r).toNat) := by
  constructor
  · rfl
  · intro r hr hneg hrange
    have hrange' : -(2 ^ 63) ≤ r ∧ r < 2 ^ 63 := hrange
    have h1 : (cs.seek w f).result
        = .ok (castIntToU64 (cs.seeker w (seekArgs f).1 (seekArgs f).2).res) := rfl
    rw [h1, hr, castIntToU64_neg r hrange'.1 hneg]

/-- Witness for C1 at a concrete failing seek: on an empty reference backend
`Seek(Current, -1)` makes the reference seeker return the `-1` error
sentinel, yet the bridge returns `Ok (2^64 - 1)`. -/
theorem seek_always_ok_w :
    (CStream.seek TestCStream.stream (TestCStream.from_bytes []) (SeekFrom.Current (-1))).result
      = .ok ((2 ^ 64 + (-1 : Int)).toNat) :=
  (seek_always_ok TestCStream.stream (TestCStream.from_bytes []) (SeekFrom.Current (-1))).2
    (-1) (by decide) (by decide) (by decide)

/-- Counterexample to claim C2 as stated: a backend read callback records
"synthetic read failure" in the crate's last-error slot immediately before
returning the `-1` sentinel, while the OS last-error text is "Success"; the
bridge's caller receives an error whose detail is the OS text
(`std::io::Error::last_os_error()`), which does not match the recorded text. -/
theorem read_detail_mismatch_cx :
    (CStream.read (synthFailStream "synthetic read failure")
        ⟨(), none, "Success"⟩ [0]).world.lastErr = some "synthetic read failure" ∧
    (CStream.read (synthFailStream "synthetic read failure")
        ⟨(), none, "Success"⟩ [0]).result = .error (.io "Success") ∧
    IoError.io "Success" ≠ IoError.io "synthetic read failure" :=
  ⟨rfl, rfl, by decide⟩

/-- Claim C2 (amended): a backend callback that records a failure detail in
the crate's process-wide last-error slot immediately before returning a
negative sentinel causes the bridge's caller to receive from
`Read`/`Write`/`Flush` an I/O error whose detail is the OS last-error
(`errno`) text; the recorded text sits untouched in the crate slot, which
the bridge's error path does not read. -/
theorem last_error_detail_propagation {σ : Type} (cs : CStream σ) (w : World σ)
    (buf : List Nat) (d : String) :
    (buf.length ≤ isizeMax → (cs.reader w buf).res < 0 →
      (cs.reader w buf).world.lastErr = some d →
      (cs.read w buf).result = .error (.io (cs.reader w buf).world.osErr) ∧
      (cs.read w buf).world.lastErr = some d) ∧
    (buf.length ≤ isizeMax → (cs.writer w buf).res < 0 →
      (cs.writer w buf).world.lastErr = some d →
      (cs.write w buf).result = .error (.io (cs.writer w buf).world.osErr) ∧
      (cs.write w buf).world.lastErr = some d) ∧
    ((cs.flusher w).res < 0 → (cs.flusher w).world.lastErr = some d →
      (cs.flush w).result = .error (.io (cs.flusher w).world.osErr) ∧
      (cs.flush w).world.lastErr = some d) := by
  refine ⟨?_, ?_, ?_⟩
  · intro hb hneg hset
    rw [CStream.read_neg cs w buf hb hneg]
    exact ⟨rfl, hset⟩
  · intro hb hneg hset
    rw [CStream.write_neg cs w buf hb hneg]
    exact ⟨rfl, hset⟩
  · intro hneg hset
    rw [CStream.flush_neg cs w hneg]
    exact ⟨rfl, hset⟩

/-- Witness for (amended) C2 at the concrete failing backend. -/
theorem last_error_detail_propagation_w :
    (CStream.read (synthFailStream "synthetic read failure")
        ⟨(), none, "Success"⟩ [0]).result = .error (.io "Success") ∧
    (CStream.read (synthFailStream "synthetic read failure")
        ⟨(), none, "Success"⟩ [0]).world.lastErr = some "synthetic read failure" := by
  have h := (last_error_detail_propagation (synthFailStream "synthetic read failure")
      ⟨(), none, "Success"⟩ [0] "synthetic read failure").1 (by decide) (by decide) (by decide)
  exact ⟨h.1, h.2⟩

/-- Claim C3: a buffer longer than `isize::MAX as usize` makes `Read`/`Write`
fail locally with `InvalidInput`: the outcome is the guard record with the
invocation counter at 0 and the world and buffer unchanged, independent of
the installed callbacks; for a buffer at or below the limit the guard does
not fire and the callback is invoked exactly once. -/
theorem oversized_buffer_guard {σ : Type} (cs : CStream σ) (w : World σ) (buf : List Nat) :
    (isizeMax < buf.length →
      cs.read w buf = { result := .error (.invalidInput "Read buffer is too large"),
                        world := w, buf := buf, calls := 0 } ∧
      cs.write w buf = { result := .error (.invalidInput "Write buffer is too large"),
                         world := w, calls := 0 }) ∧
    (buf.length ≤ isizeMax →
      (cs.read w buf).calls = 1 ∧ (cs.write w buf).calls = 1) := by
  constructor
  · intro h
    exact ⟨CStream.read_oversized cs w buf h, CStream.write_oversized cs w buf h⟩
  · intro h
    constructor
    · by_cases hneg : (cs.reader w buf).res < 0
      · rw [CStream.read_neg cs w buf h hneg]
      · rw [CStream.read_nonneg cs w buf h hneg]
    · by_cases hneg : (cs.writer w buf).res < 0
      · rw [CStream.write_neg cs w buf h hneg]
      · rw [CStream.write_nonneg cs w buf h hneg]

/-- Witness for C3: a `2^63`-byte buffer leaves the reference backend's
callback invocation count at 0, a 2-byte buffer yields exactly one call. -/
theorem oversized_buffer_guard_w :
    (CStream.read TestCStream.stream (TestCStream.from_bytes [1, 2, 3])
        (List.replicate (2 ^ 63) 0)).calls = 0 ∧
    (CStream.read TestCStream.stream (TestCStream.from_bytes [1, 2, 3]) [0, 0]).calls = 1 := by
  constructor
  · have h := (oversized_buffer_guard TestCStream.stream (TestCStream.from_bytes [1, 2, 3])
      (List.replicate (2 ^ 63) 0)).1 (by rw [List.length_replicate]; decide)
    rw [h.1]
  · exact ((oversized_buffer_guard TestCStream.stream (TestCStream.from_bytes [1, 2, 3])
      [0, 0]).2 (by decide)).1

/-- Claim C4: for every in-range buffer the bridge's `Read` invokes the read
callback exactly once with the current context and buffer — the resulting
world and buffer are exactly the callback's; a negative callback result
makes `Read` return an I/O error, and a non-negative result `n` makes it
return `Ok n`. -/
theorem read_in_range {σ : Type} (cs : CStream σ) (w : World σ) (buf : List Nat)
    (hlen : buf.length ≤ isizeMax) :
    (cs.read w buf).calls = 1 ∧
    (cs.read w buf).world = (cs.reader w buf).world ∧
    (cs.read w buf).buf = (cs.reader w buf).buf ∧
    ((cs.reader w buf).res < 0 →
      (cs.read w buf).result = .error (.io (cs.reader w buf).world.osErr)) ∧
    (∀ n : Nat, (cs.reader w buf).res = ((n : Nat) : Int) → n ≤ isizeMax →
      (cs.read w buf).result = .ok n) := by
  by_cases hneg : (cs.reader w buf).res < 0
  · rw [CStream.read_neg cs w buf hlen hneg]
    refine ⟨rfl, rfl, rfl, fun _ => rfl, ?_⟩
    intro n hn hmax
    rw [hn] at hneg
    omega
  · rw [CStream.read_nonneg cs w buf hlen hneg]
    refine ⟨rfl, rfl, rfl, fun h => absurd h hneg, ?_⟩
    intro n hn hmax
    rw [hn, castIntToU64_ofNat n (by unfold isizeMax at hmax; omega)]

/-- Witness for C4: reading 1 byte from a 2-byte reference backend invokes
the callback once and returns `Ok 1`. -/
theorem read_in_range_w :
    (CStream.read TestCStream.stream (TestCStream.from_bytes [7, 8]) [0]).calls = 1 ∧
    (CStream.read TestCStream.stream (TestCStream.from_bytes [7, 8]) [0]).result = .ok 1 := by
  have h := read_in_range TestCStream.stream (TestCStream.from_bytes [7, 8]) [0] (by decide)
  exact ⟨h.1, h.2.2.2.2 1 (by decide) (by decide)⟩

/-- Claim C5: for any byte sequence `B`, building a reference-backend bridge
from `B` (`TestCStream::from_bytes`) and reading all bytes sequentially
through the bridge — any schedule of in-range chunk sizes whose total covers
`B` — reproduces `B` exactly when the returned chunks are concatenated. -/
theorem from_bytes_read_roundtrip (B : List Nat) (sizes : List Nat)
    (hk : ∀ k ∈ sizes, k ≤ isizeMax) (hsum : B.length ≤ sizes.sum) :
    readChunks (TestCStream.from_bytes B) sizes = B := by
  unfold TestCStream.from_bytes
  rw [readChunks_eq sizes B 0 none "" (Nat.zero_le _) hk]
  rw [List.drop_zero, Nat.sub_zero, Nat.min_eq_right hsum, List.take_length]

/-- Witness for C5: round-tripping 5 bytes in two 3-byte reads. -/
theorem from_bytes_read_roundtrip_w :
    readChunks (TestCStream.from_bytes [1, 2, 3, 4, 5]) [3, 3] = [1, 2, 3, 4, 5] :=
  from_bytes_read_roundtrip [1, 2, 3, 4, 5] [3, 3] (by decide) (by decide)

/-- Claim C6: the bridge's seek maps each native request losslessly to an
`(offset, mode)` pair — the modes carry the `repr(C)` codes `Start = 0`,
`Current = 1`, `End = 2`; the request's signed offset is passed through
(`Start`'s `u64` offset narrowed to the signed wire type), and the mapping
is injective on wire-representable requests — and the seek callback's signed
result, cast to `u64`, becomes the new absolute position. -/
theorem seek_request_mapping {σ : Type} (cs : CStream σ) (w : World σ) :
    (C2paSeekMode.code .Start = 0 ∧ C2paSeekMode.code .Current = 1 ∧
      C2paSeekMode.code .End = 2) ∧
    (∀ u : Nat, seekArgs (.Start u) = (castU64ToInt u, .Start)) ∧
    (∀ i : Int, seekArgs (.Current i) = (i, .Current)) ∧
    (∀ i : Int, seekArgs (.End i) = (i, .End)) ∧
    (∀ f : SeekFrom, (cs.seek w f).result
        = .ok (castIntToU64 (cs.seeker w (seekArgs f).1 (seekArgs f).2).res)) ∧
    (∀ f g : SeekFrom, u64Wire f → u64Wire g → seekArgs f = seekArgs g → f = g) := by
  refine ⟨⟨rfl, rfl, rfl⟩, fun _ => rfl, fun _ => rfl, fun _ => rfl, fun _ => rfl, ?_⟩
  intro f g hf hg h
  cases f with
  | Start u =>
    cases g with
    | Start v =>
      have hu : u < 2 ^ 64 := hf
      have hv : v < 2 ^ 64 := hg
      have huv : castU64ToInt u = castU64ToInt v := congrArg Prod.fst h
      rw [castU64ToInt_inj u v hu hv huv]
    | Current j => simp [seekArgs] at h
    | End j => simp [seekArgs] at h
  | Current i =>
    cases g with
    | Start v => simp [seekArgs] at h
    | Current j => rw [show i = j from congrArg Prod.fst h]
    | End j => simp [seekArgs] at h
  | End i =>
    cases g with
    | Start v => simp [seekArgs] at h
    | Current j => simp [seekArgs] at h
    | End j => rw [show i = j from congrArg Prod.fst h]

/-- Witness for C6 at a concrete request. -/
theorem seek_request_mapping_w :
    (CStream.seek TestCStream.stream (TestCStream.from_bytes [1, 2, 3, 4, 5])
        (SeekFrom.Start 2)).result
      = .ok (castIntToU64 ((TestCStream.stream.seeker (TestCStream.from_bytes [1, 2, 3, 4, 5])
          (seekArgs (.Start 2)).1 (seekArgs (.Start 2)).2).res)) ∧
    SeekFrom.Start 2 = SeekFrom.Start 2 := by
  have h := seek_request_mapping TestCStream.stream (TestCStream.from_bytes [1, 2, 3, 4, 5])
  exact ⟨h.2.2.2.2.1 (.Start 2), h.2.2.2.2.2 (.Start 2) (.Start 2) (by decide) (by decide) rfl⟩

/-- Claim C7: replay of `test_cstream_seek` on a 5-byte reference backend:
`Seek(Start, 2)` then a 3-byte read yields the bytes at indices 2, 3, 4;
`Seek(End, -2)` then a 2-byte read yields the last two bytes; the cursor then
sits at 5, and `Seek(Current, -4)` yields position 1, after which a 3-byte
read yields the bytes at indices 1, 2, 3. -/
theorem seek_arithmetic_replay :
    replayS1.result = .ok 2 ∧ replayR1.result = .ok 3 ∧ replayR1.buf = [3, 4, 5] ∧
    replayS2.result = .ok 3 ∧ replayR2.result = .ok 2 ∧ replayR2.buf = [4, 5] ∧
    replayR2.world.ctx.pos = 5 ∧
    replayS3.result = .ok 1 ∧ replayR3.result = .ok 3 ∧ replayR3.buf = [2, 3, 4] := by
  decide

/-- Claim C8: whenever the reference backend's cursor has fewer remaining
bytes than the destination buffer, `Read` returns exactly the remaining
count, fills only that many leading destination bytes (with the data past
the cursor), and leaves the rest of the destination buffer untouched. -/
theorem partial_read_untouched_tail (B : List Nat) (p : Nat) (buf : List Nat)
    (le : Option String) (os : String)
    (hrem : B.length - min p B.length < buf.length) (hb : buf.length ≤ isizeMax) :
    (CStream.read TestCStream.stream ⟨⟨B, p⟩, le, os⟩ buf).result
        = .ok (B.length - min p B.length) ∧
    (CStream.read TestCStream.stream ⟨⟨B, p⟩, le, os⟩ buf).buf.take
        (B.length - min p B.length) = B.drop (min p B.length) ∧
    (CStream.read TestCStream.stream ⟨⟨B, p⟩, le, os⟩ buf).buf.drop
        (B.length - min p B.length) = buf.drop (B.length - min p B.length) := by
  have hmin : min buf.length (B.length - min p B.length) = B.length - min p B.length :=
    Nat.min_eq_right (Nat.le_of_lt hrem)
  rw [stream_read_eq B p le os buf hb, hmin]
  have hlen : ((B.drop (min p B.length)).take (B.length - min p B.length)).length
      = B.length - min p B.length := by
    rw [List.length_take, List.length_drop]
    omega
  refine ⟨rfl, ?_, ?_⟩
  · rw [List.take_left' hlen]
    exact List.take_of_length_le (by rw [List.length_drop])
  · rw [List.drop_left' hlen]

/-- Witness for C8: 2 bytes remain, the 3-byte destination `[0,0,0]` becomes
`[4,5,0]` and the return value is 2. -/
theorem partial_read_untouched_tail_w :
    (CStream.read TestCStream.stream ⟨⟨[1, 2, 3, 4, 5], 3⟩, none, ""⟩ [0, 0, 0]).result
        = .ok 2 ∧
    (CStream.read TestCStream.stream ⟨⟨[1, 2, 3, 4, 5], 3⟩, none, ""⟩ [0, 0, 0]).buf.take 2
        = [4, 5] ∧
    (CStream.read TestCStream.stream ⟨⟨[1, 2, 3, 4, 5], 3⟩, none, ""⟩ [0, 0, 0]).buf.drop 2
        = [0] :=
  partial_read_untouched_tail [1, 2, 3, 4, 5] 3 [0, 0, 0] none "" (by decide) (by decide)

/-- Counterexample to claim C9 as stated: a flush callback records
"synthetic flush failure" in the crate's last-error slot and returns `-1`
while the OS last-error text is "Success"; the bridge's caller gets an I/O
error whose detail is the OS text, not the content of the callback-written
last-error slot. -/
theorem flush_detail_mismatch_cx :
    (CStream.flush (synthFailStream "synthetic flush failure")
        ⟨(), none, "Success"⟩).world.lastErr = some "synthetic flush failure" ∧
    (CStream.flush (synthFailStream "synthetic flush failure")
        ⟨(), none, "Success"⟩).result = .error (.io "Success") ∧
    IoError.io "Success" ≠ IoError.io "synthetic flush failure" :=
  ⟨rfl, rfl, by decide⟩

/-- Claim C9 (amended): the bridge's `Flush` invokes the flush callback with
only the context; a zero (indeed any non-negative) result yields success
(`Ok ()`), and a negative result yields an I/O error whose detail is the OS
last-error (`errno`) text, not the crate's callback-written last-error slot.
The reference backend's flusher always returns 0. -/
theorem flush_result_mapping {σ : Type} (cs : CStream σ) (w : World σ) :
    ((cs.flusher w).res = 0 →
      cs.flush w = { result := .ok (), world := (cs.flusher w).world }) ∧
    ((cs.flusher w).res < 0 →
      cs.flush w = { result := .error (.io (cs.flusher w).world.osErr),
                     world := (cs.flusher w).world }) ∧
    ∀ w' : World TestCStream, (TestCStream.flusher w').res = 0 := by
  refine ⟨?_, ?_, fun _ => rfl⟩
  · intro h0
    exact CStream.flush_nonneg cs w (by omega)
  · intro hneg
    exact CStream.flush_neg cs w hneg

/-- Witness for (amended) C9: flushing the reference backend succeeds. -/
theorem flush_result_mapping_w :
    CStream.flush TestCStream.stream (TestCStream.from_bytes [1])
      = { result := .ok (), world := TestCStream.from_bytes [1] } :=
  (flush_result_mapping TestCStream.stream (TestCStream.from_bytes [1])).1 rfl

/-- Claim C10: the reference backend's seeker in `Start` mode never takes the
`-1` error path: for every state and in-range offset it unconditionally sets
the cursor to `offset as u64` — a negative offset becomes the huge position
`2^64 + offset ≥ 2^63` rather than an error — leaves the data and the
last-error slot untouched, and returns the resulting cursor value
reinterpreted as `isize`, which is the original offset itself. -/
theorem seeker_start_unconditional (w : World TestCStream) (off : Int)
    (h : isizeRange off) :
    (TestCStream.seeker w off .Start).world.ctx.pos = castIntToU64 off ∧
    (TestCStream.seeker w off .Start).world.ctx.data = w.ctx.data ∧
    (TestCStream.seeker w off .Start).world.lastErr = w.lastErr ∧
    (TestCStream.seeker w off .Start).res = off ∧
    (off < 0 → 2 ^ 63 ≤ (TestCStream.seeker w off .Start).world.ctx.pos ∧
      (((TestCStream.seeker w off .Start).world.ctx.pos : Nat) : Int) = 2 ^ 64 + off) := by
  have h' : -(2 ^ 63) ≤ off ∧ off < 2 ^ 63 := h
  refine ⟨rfl, rfl, rfl, ?_, ?_⟩
  · show castU64ToInt (castIntToU64 off) = off
    exact castU64ToInt_castIntToU64 off h
  · intro hneg
    constructor
    · show 2 ^ 63 ≤ castIntToU64 off
      unfold castIntToU64 U64MOD
      omega
    · show ((castIntToU64 off : Nat) : Int) = 2 ^ 64 + off
      unfold castIntToU64 U64MOD
      omega

/-- Witness for C10 at `offset = -5`. -/
theorem seeker_start_unconditional_w :
    (TestCStream.seeker (TestCStream.from_bytes [1, 2, 3]) (-5) .Start).res = -5 ∧
    (TestCStream.seeker (TestCStream.from_bytes [1, 2, 3]) (-5) .Start).world.ctx.pos
      = castIntToU64 (-5) := by
  have h := seeker_start_unconditional (TestCStream.from_bytes [1, 2, 3]) (-5) (by decide)
  exact ⟨h.2.2.2.1, h.1⟩
